import Mathlib

/-!
Shallow embedding of the two-layer ticket-tagging decision engine of the
sindibad-task repository, together with proofs settling the frozen claims
about it.

Sources embedded:
- src/domain/entities/ticket.py                 (ServiceType, Category, Tag)
- src/domain/value_objects/tagging_result.py    (TaggingResult and validation)
- src/infrastructure/external_services/keyword_tagger.py  (Layer 1)
- src/infrastructure/external_services/agentic_tagger.py  (Layer 2)
- src/application/services/tagging_service.py   (escalation, selection, merge)
- src/infrastructure/database/ticket_repository.py (problematic-ticket order)

Modelling conventions:
- Python float confidences are modelled as rational numbers; every constant
  appearing in the source (0.1, 0.3, 0.5, 0.7, 1.0) is an exact rational.
- Python strings are modelled as `List Char`; the keyword tables are written
  with string literals and converted.  All configured keywords are lowercase
  and begin and end with a word character, so the regex word boundary of the
  source patterns reduces to the explicit neighbour check of `matchesAt`.
- Keyword scores are held in exact tenths (`Nat`): the source computes
  `score = len(matches) + sum(0.1 * index)`, modelled as
  `10 * count + sum index`.  Confidence `min(score * 0.3, 1.0)` becomes
  `min (tenths * 3 / 100) 1` over the rationals.
- The `reasoning`, `key_phrases`, `metadata` and `timestamp` fields of the
  Python dataclasses are not modelled: no frozen claim mentions them, and the
  key-phrase list is built through a Python `set` whose order is unspecified.
- External effects (the OpenAI provider call) are modelled by explicit
  parameters describing their outcome.
-/

namespace Sindibad

/-- The closed service-type axis of src/domain/entities/ticket.py. -/
inductive ServiceType where
  | FLIGHT
  | HOTEL
  | VISA
  | ESIM
  | WALLET
  | OTHER
deriving DecidableEq

/-- The closed category axis of src/domain/entities/ticket.py. -/
inductive Category where
  | CANCELLATION
  | MODIFY
  | TOP_UP
  | WITHDRAW
  | ORDER_RECHECK
  | PRE_PURCHASE
  | OTHERS
deriving DecidableEq

/-- TaggingResult value object (tagging_result.py); confidence as a rational. -/
structure TaggingResult where
  service_type : Option ServiceType
  category : Option Category
  confidence_score : ℚ
  method_used : String
deriving DecidableEq

/-- tagging_result.py, is_successful: at least one axis set. -/
def TaggingResult.is_successful (r : TaggingResult) : Bool :=
  r.service_type.isSome || r.category.isSome

/-- tagging_result.py, is_complete: both axes set. -/
def TaggingResult.is_complete (r : TaggingResult) : Bool :=
  r.service_type.isSome && r.category.isSome

/-- Tag entity (ticket.py); same modelled fields as TaggingResult. -/
structure Tag where
  service_type : Option ServiceType
  category : Option Category
  confidence : ℚ
  method : String
deriving DecidableEq

/-- ticket.py, Tag.is_complete. -/
def Tag.is_complete (t : Tag) : Bool :=
  t.service_type.isSome && t.category.isSome

/-- ticket.py, Tag.is_default_tag: both axes equal the unclassified pair.
A Python `None == member` comparison is false, hence the `some` pattern. -/
def Tag.is_default_tag (t : Tag) : Bool :=
  t.service_type = some ServiceType.OTHER && t.category = some Category.OTHERS

/-- tagging_result.py, to_tag: pure field-wise conversion. -/
def TaggingResult.to_tag (r : TaggingResult) : Tag :=
  ⟨r.service_type, r.category, r.confidence_score, r.method_used⟩

/-- Construction of a TaggingResult through the dataclass constructor.
The source runs `__post_init__`, which raises ValueError unless
`0.0 <= confidence_score <= 1.0`; a raise is modelled as `Except.error`. -/
def mkTaggingResult (st : Option ServiceType) (cat : Option Category)
    (conf : ℚ) (meth : String) : Except String TaggingResult :=
  if 0 ≤ conf ∧ conf ≤ 1 then
    Except.ok ⟨st, cat, conf, meth⟩
  else
    Except.error "Confidence score must be between 0.0 and 1.0"

/-- Construction of a Tag through the dataclass constructor.  The Tag
dataclass of ticket.py declares no `__post_init__`, so construction never
fails and no range check is performed on the confidence. -/
def mkTag (st : Option ServiceType) (cat : Option Category)
    (conf : ℚ) (meth : String) : Except String Tag :=
  Except.ok ⟨st, cat, conf, meth⟩

/-! ### Python text primitives -/

/-- The default whitespace set of Python `str.strip` / regex `\s` (ASCII). -/
def pySpace (c : Char) : Bool :=
  c = ' ' || c = '\t' || c = '\n' || c = '\x0b' || c = '\x0c' || c = '\r'

/-- Python `str.lower`, ASCII fragment. -/
def pyToLower (s : List Char) : List Char :=
  s.map Char.toLower

/-- Python `str.strip()`. -/
def pyStrip (s : List Char) : List Char :=
  ((s.dropWhile pySpace).reverse.dropWhile pySpace).reverse

/-- Python `" ".join(texts)`. -/
def joinSpace : List (List Char) → List Char
  | [] => []
  | [t] => t
  | t :: ts => t ++ ' ' :: joinSpace ts

/-- A regex word character `\w`, ASCII fragment. -/
def isWordChar (c : Char) : Bool :=
  c.isAlphanum || c = '_'

/-! ### Layer 1: keyword_tagger.py -/

/-- Whether keyword `kw` matches text `s` at position `p` as a whole word:
`kw` occurs literally at `p` and, since every configured keyword begins and
ends with a word character, the `\b` anchors of the compiled pattern
`\bkw\b` amount to the neighbouring characters not being word characters. -/
def matchesAt (s kw : List Char) (p : Nat) : Bool :=
  List.isPrefixOf kw (s.drop p) &&
  (p == 0 || !isWordChar (s.getD (p - 1) ' ')) &&
  !isWordChar (s.getD (p + kw.length) ' ')

/-- One pass of `pattern.findall` for the alternation of the keywords of one
label, recorded with the list index of the matching keyword.  At each
position the alternatives are tried in declaration order (Python alternation
is first-match, not longest-match); a match consumes its text.  The fuel
starts at `s.length + 1` and every step advances the position, so it never
runs out for the configured (nonempty) keywords. -/
def findallWithIdxAux (kws : List (List Char)) (s : List Char) :
    Nat → Nat → List (Nat × List Char)
  | 0, _ => []
  | fuel + 1, p =>
    if s.length ≤ p then []
    else
      match (kws.enum.find? fun ik => matchesAt s ik.2 p) with
      | some (i, kw) => (i, kw) :: findallWithIdxAux kws s fuel (p + kw.length)
      | none => findallWithIdxAux kws s fuel (p + 1)

/-- All whole-word matches of a label's keyword list in `s`, with the index
of the keyword that produced each match. -/
def findallWithIdx (kws : List (List Char)) (s : List Char) :
    List (Nat × List Char) :=
  findallWithIdxAux kws s (s.length + 1) 0

/-- `pattern.findall(text)` of the source: just the matched substrings.
Because the text is lowercased first, a matched substring is literally equal
to the keyword that matched. -/
def findall (kws : List (List Char)) (s : List Char) : List (List Char) :=
  (findallWithIdx kws s).map Prod.snd

/-- Python `kw in m`: `kw` occurs as a contiguous substring of `m`. -/
def isSegmentOf (kw m : List Char) : Bool :=
  match m with
  | [] => kw.isEmpty
  | _ :: t => List.isPrefixOf kw m || isSegmentOf kw t

/-- The specificity index the source assigns to a match `m`:
`next((i for i, kw in enumerate(keywords) if kw.lower() in match.lower()), 0)`,
i.e. the index of the first keyword of the list that occurs as a substring
of the matched text, defaulting to 0. -/
def code_keyword_index (kws : List (List Char)) (m : List Char) : Nat :=
  match kws.findIdx? (fun kw => isSegmentOf kw m) with
  | some i => i
  | none => 0

/-- The score the source computes for one label, in exact tenths:
`len(matches) + sum(0.1 * code_keyword_index)` becomes
`10 * count + sum of indices`; `none` when the label has no match. -/
def label_score_tenths (kws : List (List Char)) (s : List Char) : Option Nat :=
  let ms := findall kws s
  if ms.isEmpty then none
  else some (10 * ms.length + (ms.map (code_keyword_index kws)).sum)

/-- Service-type keyword table of keyword_tagger.py, in declaration order. -/
def service_keywords : List (ServiceType × List String) :=
  [(ServiceType.FLIGHT,
    ["flight", "flights", "airline", "airway", "airplane", "aircraft",
     "booking reference", "pnr", "departure", "arrival", "gate",
     "boarding", "seat", "baggage", "check-in", "terminal",
     "pilot", "crew", "turbulence", "layover", "connecting flight"]),
   (ServiceType.HOTEL,
    ["hotel", "hotels", "accommodation", "room", "rooms", "suite",
     "reservation", "check-in", "check-out", "lobby", "reception",
     "housekeeping", "amenities", "breakfast", "pool", "spa",
     "concierge", "bed", "bathroom", "wifi", "parking"]),
   (ServiceType.VISA,
    ["visa", "visas", "passport", "immigration", "embassy", "consulate",
     "application", "documents", "processing", "approval", "rejection",
     "tourist visa", "business visa", "transit visa", "entry permit",
     "border", "customs", "documentation"]),
   (ServiceType.ESIM,
    ["esim", "e-sim", "sim", "data", "roaming", "network", "cellular",
     "mobile data", "internet", "connectivity", "signal", "carrier",
     "data plan", "gb", "mb", "unlimited data", "coverage"]),
   (ServiceType.WALLET,
    ["wallet", "balance", "payment", "money", "funds", "account",
     "credit", "debit", "transaction", "transfer", "deposit",
     "withdrawal", "refund", "charge", "billing", "invoice"])]

/-- Category keyword table of keyword_tagger.py, in declaration order. -/
def category_keywords : List (Category × List String) :=
  [(Category.CANCELLATION,
    ["cancel", "cancelled", "cancellation", "refund", "abort",
     "terminate", "stop", "end", "quit", "remove", "delete",
     "void", "annul", "revoke", "withdraw booking"]),
   (Category.MODIFY,
    ["change", "modify", "modification", "update", "edit", "alter",
     "adjust", "reschedule", "postpone", "move", "shift",
     "different", "another", "switch", "transfer", "exchange"]),
   (Category.TOP_UP,
    ["top up", "topup", "top-up", "recharge", "reload", "add money",
     "add funds", "deposit", "credit", "load", "refill",
     "increase balance", "add credit"]),
   (Category.WITHDRAW,
    ["withdraw", "withdrawal", "cash out", "take out", "remove funds",
     "extract", "get money", "retrieve funds", "debit",
     "transfer out", "move money out"]),
   (Category.ORDER_RECHECK,
    ["recheck", "re-check", "review", "verify", "confirm", "validate",
     "double check", "examine", "inspect", "audit", "status",
     "check order", "order status", "booking status"]),
   (Category.PRE_PURCHASE,
    ["pre-purchase", "pre purchase", "before buying", "inquiry",
     "question", "ask", "information", "details", "help",
     "support", "how to", "can i", "is it possible", "availability"])]

/-- The per-label scores dictionary of `_find_service_type`/`_find_category`,
as an association list in table (= dict insertion) order; labels without a
match are absent, as in the source. -/
def scoresFor {α : Type} (table : List (α × List String)) (s : List Char) :
    List (α × Nat) :=
  table.filterMap fun lk =>
    (label_score_tenths (lk.2.map String.toList) s).map (fun sc => (lk.1, sc))

/-- Python `max(scores.items(), key=lambda x: x[1])` over a nonempty list:
the first entry attaining the maximal score (replacement only on a strictly
greater score). -/
def bestLabel {α : Type} : List (α × Nat) → Option (α × Nat)
  | [] => none
  | x :: rest =>
    match bestLabel rest with
    | none => some x
    | some y => if x.2 < y.2 then some y else some x

/-- keyword_tagger.py `_find_service_type`: winning label and confidence
`min(score * 0.3, 1.0)`, or `(None, 0.0)` when nothing matches. -/
def find_service_type (s : List Char) : Option ServiceType × ℚ :=
  match bestLabel (scoresFor service_keywords s) with
  | some ls => (some ls.1, min ((ls.2 : ℚ) * 3 / 100) 1)
  | none => (none, 0)

/-- keyword_tagger.py `_find_category`, same shape as `find_service_type`. -/
def find_category (s : List Char) : Option Category × ℚ :=
  match bestLabel (scoresFor category_keywords s) with
  | some ls => (some ls.1, min ((ls.2 : ℚ) * 3 / 100) 1)
  | none => (none, 0)

/-- keyword_tagger.py `tag_text`: lowercase and strip the input, run both
axes, and either return the default unclassified pair (confidence 0.0,
method keywords_default) when neither axis matched, or the two axis winners
with the maximum of the per-axis confidences and method keywords. -/
def tag_text (text : List Char) : TaggingResult :=
  let t := pyStrip (pyToLower text)
  let st := find_service_type t
  let cat := find_category t
  if st.1.isNone && cat.1.isNone then
    ⟨some ServiceType.OTHER, some Category.OTHERS, 0, "keywords_default"⟩
  else
    ⟨st.1, cat.1, max st.2 cat.2, "keywords"⟩

/-! ### Layer 2: agentic_tagger.py -/

/-- agentic_tagger.py `_create_error_result`: the unclassified pair with
confidence 0.0 and method agentic_error.  The reason string only feeds the
unmodelled reasoning/metadata fields. -/
def create_error_result (_reason : String) : TaggingResult :=
  ⟨some ServiceType.OTHER, some Category.OTHERS, 0, "agentic_error"⟩

/-- Service detection of `_fallback_analysis`: plain substring tests
(`word in text_lower`), chained with elif in declaration order. -/
def fallback_service (t : List Char) : Option ServiceType :=
  if ["flight", "plane", "airline", "booking reference"].any
      (fun w => isSegmentOf w.toList t) then some ServiceType.FLIGHT
  else if ["hotel", "room", "reservation", "check-in"].any
      (fun w => isSegmentOf w.toList t) then some ServiceType.HOTEL
  else if ["visa", "passport", "embassy"].any
      (fun w => isSegmentOf w.toList t) then some ServiceType.VISA
  else if ["esim", "sim", "data", "roaming"].any
      (fun w => isSegmentOf w.toList t) then some ServiceType.ESIM
  else if ["wallet", "balance", "payment", "money"].any
      (fun w => isSegmentOf w.toList t) then some ServiceType.WALLET
  else none

/-- Category detection of `_fallback_analysis`, same shape. -/
def fallback_category (t : List Char) : Option Category :=
  if ["cancel", "refund", "terminate"].any
      (fun w => isSegmentOf w.toList t) then some Category.CANCELLATION
  else if ["change", "modify", "update", "reschedule"].any
      (fun w => isSegmentOf w.toList t) then some Category.MODIFY
  else if ["top up", "recharge", "add money"].any
      (fun w => isSegmentOf w.toList t) then some Category.TOP_UP
  else if ["withdraw", "cash out", "take out"].any
      (fun w => isSegmentOf w.toList t) then some Category.WITHDRAW
  else if ["check", "status", "verify", "confirm"].any
      (fun w => isSegmentOf w.toList t) then some Category.ORDER_RECHECK
  else if ["how to", "can i", "information", "help"].any
      (fun w => isSegmentOf w.toList t) then some Category.PRE_PURCHASE
  else none

/-- agentic_tagger.py `_fallback_analysis`: lowercase the combined text, run
both coarse detections, and assign confidence 0.7 when both axes resolved,
0.5 when exactly one did, and 0.3 with the unclassified pair substituted
when neither did; method agentic_fallback throughout. -/
def fallback_analysis (combined : List Char) : TaggingResult :=
  let t := pyToLower combined
  match fallback_service t, fallback_category t with
  | some s, some c => ⟨some s, some c, 7/10, "agentic_fallback"⟩
  | none, none =>
    ⟨some ServiceType.OTHER, some Category.OTHERS, 3/10, "agentic_fallback"⟩
  | st, cat => ⟨st, cat, 1/2, "agentic_fallback"⟩

/-- Service-keyword map of `_extract_tagging_from_ai_response`, in dict
insertion order. -/
def service_mapping : List (String × ServiceType) :=
  [("flight", ServiceType.FLIGHT), ("hotel", ServiceType.HOTEL),
   ("visa", ServiceType.VISA), ("esim", ServiceType.ESIM),
   ("e-sim", ServiceType.ESIM), ("wallet", ServiceType.WALLET),
   ("other", ServiceType.OTHER)]

/-- Category-keyword map of `_extract_tagging_from_ai_response`, in dict
insertion order. -/
def category_mapping : List (String × Category) :=
  [("cancellation", Category.CANCELLATION), ("cancel", Category.CANCELLATION),
   ("modify", Category.MODIFY), ("change", Category.MODIFY),
   ("top_up", Category.TOP_UP), ("top up", Category.TOP_UP),
   ("withdraw", Category.WITHDRAW), ("cash out", Category.WITHDRAW),
   ("order_recheck", Category.ORDER_RECHECK),
   ("order re-check", Category.ORDER_RECHECK),
   ("check", Category.ORDER_RECHECK), ("status", Category.ORDER_RECHECK),
   ("pre_purchase", Category.PRE_PURCHASE),
   ("pre-purchase", Category.PRE_PURCHASE),
   ("information", Category.PRE_PURCHASE), ("help", Category.PRE_PURCHASE),
   ("others", Category.OTHERS), ("other", Category.OTHERS)]

/-- Decimal digit test for the confidence regex `\d`. -/
def isDigitChar (c : Char) : Bool := c.isDigit

/-- Value of a run of decimal digits. -/
def digitsVal (ds : List Char) : Nat :=
  ds.foldl (fun n c => 10 * n + (c.toNat - 48)) 0

/-- The number matched by the regex fragment `\d*\.?\d+` at the head of `s`,
with its backtracking semantics: digits, an optional dot followed by at
least one digit; a trailing dot is not consumed; `none` when no digit can
be matched at all.  The decimal string is read exactly (the model uses
rationals where Python rounds to the nearest float). -/
def parseNum (s : List Char) : Option ℚ :=
  let d1 := s.takeWhile isDigitChar
  match s.drop d1.length with
  | '.' :: r2 =>
    let d2 := r2.takeWhile isDigitChar
    if !d2.isEmpty then
      some ((digitsVal d1 : ℚ) + (digitsVal d2 : ℚ) / 10 ^ d2.length)
    else if !d1.isEmpty then some (digitsVal d1) else none
  | _ => if !d1.isEmpty then some (digitsVal d1) else none

/-- The literal head of the confidence regex. -/
def confToken : List Char := "confidence".toList

/-- The separator class `[:\s]*` of the confidence regex. -/
def skipColonSpace (s : List Char) : List Char :=
  s.dropWhile (fun c => c = ':' || pySpace c)

/-- `re.search(r'confidence[:\s]*(\d*\.?\d+)', text)`: the leftmost position
where the full pattern matches, returning its number group. -/
def searchConf : List Char → Option ℚ
  | [] => none
  | c :: rest =>
    if List.isPrefixOf confToken (c :: rest) then
      match parseNum (skipColonSpace ((c :: rest).drop confToken.length)) with
      | some q => some q
      | none => searchConf rest
    else searchConf rest

/-- agentic_tagger.py `_extract_tagging_from_ai_response`: the axis values
default to the unclassified pair (so both are always set), the first mapping
key occurring as a substring of the lowercased response wins each axis, and
a parsed confidence number is clamped into `[0,1]`, defaulting to the
initial 0.5 when the regex finds no number.  (The ValueError branch of the
source is unreachable: every string the regex group can produce parses.) -/
def extract_tagging (resp : List Char) : ServiceType × Category × ℚ :=
  let t := pyToLower resp
  let st := match service_mapping.find? (fun km => isSegmentOf km.1.toList t) with
    | some km => km.2
    | none => ServiceType.OTHER
  let cat := match category_mapping.find? (fun km => isSegmentOf km.1.toList t) with
    | some km => km.2
    | none => Category.OTHERS
  let conf := match searchConf t with
    | some x => min 1 (max 0 x)
    | none => 1/2
  (st, cat, conf)

/-- agentic_tagger.py `_parse_ai_response`: reading `final_output` (or any
other failure inside this helper, modelled by the `Except.error` case) is
caught locally and converted to the parsing_error result; otherwise the
extracted fields are wrapped with method ai_agent_analysis. -/
def parse_ai_response (fo : Except Unit (List Char)) : TaggingResult :=
  match fo with
  | Except.error _ => create_error_result "parsing_error"
  | Except.ok resp =>
    let e := extract_tagging resp
    ⟨some e.1, some e.2.1, e.2.2, "ai_agent_analysis"⟩

/-- Outcome of the external `Runner.run` call: the awaited call may raise,
or return an agent result whose `final_output` attribute access may itself
fail (the latter failures are the ones `_parse_ai_response` catches). -/
inductive RunOutcome where
  | raised
  | returned (final_output : Except Unit (List Char))

/-- agentic_tagger.py `tag_conversation`.  The combined text is the
space-join of the messages, stripped; when it is empty the empty_input error
result is returned.  When the provider is unavailable the deterministic
fallback runs.  When it is available: a raising `Runner.run` is caught by
the outer handler (analysis_error); on a successful run the response is
parsed, after which the source calls `self._update_metrics(confidence)` —
but the class defines `_update_metrics` twice and the second definition
(two required arguments) shadows the first, so this call always raises
TypeError, which the outer handler converts to the analysis_error result.
Hence the provider-backed branch never returns the parsed result. -/
def tag_conversation (messages : List (List Char)) (available : Bool)
    (run : RunOutcome) : TaggingResult :=
  let combined := pyStrip (joinSpace messages)
  if combined.isEmpty then create_error_result "empty_input"
  else if available = false then fallback_analysis combined
  else
    match run with
    | RunOutcome.raised => create_error_result "analysis_error"
    | RunOutcome.returned fo =>
      let _tagging_result := parse_ai_response fo
      create_error_result "analysis_error"

/-! ### Application service: tagging_service.py -/

/-- tagging_service.py `_create_default_result`: the default result returned
for a ticket without user messages. -/
def create_default_result (_reason : String) : TaggingResult :=
  ⟨some ServiceType.OTHER, some Category.OTHERS, 0, "default"⟩

/-- tagging_service.py `tag_ticket`, instrumented with a Boolean recording
whether Layer 2 was invoked.  The agentic engine's answer is a parameter
(its value depends on provider availability and the provider's response);
`tag_conversation` above describes which answers are possible.  The first
component is the returned TaggingResult. -/
def tag_ticket (userMessages : List (List Char)) (agentic : TaggingResult) :
    TaggingResult × Bool :=
  if userMessages.isEmpty then (create_default_result "no_user_messages", false)
  else
    let keyword_result := tag_text (joinSpace userMessages)
    if keyword_result.is_successful = true ∧
        (7 : ℚ)/10 ≤ keyword_result.confidence_score then
      (keyword_result, false)
    else if 1 < userMessages.length ∨ keyword_result.confidence_score < 1/2 then
      if keyword_result.confidence_score < agentic.confidence_score ∨
          agentic.is_complete = true then
        (agentic, true)
      else (keyword_result, true)
    else (keyword_result, false)

/-- The merge decision of tagging_service.py `update_ticket_tags`
(the `should_update` expression, lines 76-82). -/
def should_update (cur : Tag) (new_result : TaggingResult) : Bool :=
  new_result.is_successful &&
    (!cur.is_complete ||
     decide (cur.confidence < new_result.confidence_score) ||
     cur.is_default_tag)

/-- The tag-replacement step of `update_ticket_tags` (lines 84-89) applied
to an already-computed new result: the ticket's tag is replaced exactly when
the merge decision is positive, and is untouched otherwise.  The Boolean is
the method's return value. -/
def apply_merge (cur : Tag) (new_result : TaggingResult) : Tag × Bool :=
  if should_update cur new_result then (new_result.to_tag, true)
  else (cur, false)

/-- ticket.py TicketStatus. -/
inductive TicketStatus where
  | OPEN
  | CLOSED
  | PENDING
deriving DecidableEq

/-- ticket.py `should_process_for_tagging`. -/
def should_process_for_tagging (status : TicketStatus)
    (userMessages : List (List Char)) : Bool :=
  decide (status = TicketStatus.OPEN) && !userMessages.isEmpty

/-- tagging_service.py `update_ticket_tags` end to end: gate on
`should_process_for_tagging`, recompute through `tag_ticket`, then merge. -/
def update_ticket_tags (status : TicketStatus)
    (userMessages : List (List Char)) (agentic : TaggingResult)
    (cur : Tag) : Tag × Bool :=
  if should_process_for_tagging status userMessages then
    apply_merge cur (tag_ticket userMessages agentic).1
  else (cur, false)

/-! ### Repository ordering: ticket_repository.py `get_problematic_tickets` -/

/-- The columns of TicketModel that the problematic-ticket query reads.
The axis columns hold the enum value strings or NULL; timestamps are
abstract instants ordered as naturals. -/
structure TicketRow where
  confidence : ℚ
  service_type : Option String
  category : Option String
  created_at : Nat
  updated_at : Nat
deriving DecidableEq

/-- The CASE expression of the query: 1 when the service type is NULL, the
category is NULL, or the row carries the Other/Others pair; else 0. -/
def corner_case_flag (r : TicketRow) : Nat :=
  if r.service_type = none then 1
  else if r.category = none then 1
  else if r.service_type = some "Other" ∧ r.category = some "Others" then 1
  else 0

/-- The total preorder realised by the query's ORDER BY clause:
confidence ascending, then corner-case flag descending, then created_at
descending. -/
def problematic_order (a b : TicketRow) : Prop :=
  a.confidence < b.confidence ∨
    (a.confidence = b.confidence ∧
      (corner_case_flag b < corner_case_flag a ∨
        (corner_case_flag a = corner_case_flag b ∧ b.created_at ≤ a.created_at)))

instance : DecidableRel problematic_order := fun a b => by
  unfold problematic_order
  infer_instance

/-- The ordering the claim describes: confidence ascending, corner-case
flag descending, then updated_at descending (most recently updated first). -/
def claim_order (a b : TicketRow) : Prop :=
  a.confidence < b.confidence ∨
    (a.confidence = b.confidence ∧
      (corner_case_flag b < corner_case_flag a ∨
        (corner_case_flag a = corner_case_flag b ∧ b.updated_at ≤ a.updated_at)))

instance : DecidableRel claim_order := fun a b => by
  unfold claim_order
  infer_instance

instance : IsTrans TicketRow problematic_order := by
  constructor
  intro a b c hab hbc
  rcases hab with h1 | ⟨e1, h1⟩
  · rcases hbc with h2 | ⟨e2, _⟩
    · exact Or.inl (lt_trans h1 h2)
    · exact Or.inl (by rw [← e2]; exact h1)
  · rcases hbc with h2 | ⟨e2, h2⟩
    · exact Or.inl (by rw [e1]; exact h2)
    · refine Or.inr ⟨e1.trans e2, ?_⟩
      rcases h1 with f1 | ⟨g1, d1⟩ <;> rcases h2 with f2 | ⟨g2, d2⟩
      · exact Or.inl (lt_trans f2 f1)
      · exact Or.inl (by omega)
      · exact Or.inl (by omega)
      · exact Or.inr ⟨g1.trans g2, le_trans d2 d1⟩

instance : IsTotal TicketRow problematic_order := by
  constructor
  intro a b
  rcases lt_trichotomy a.confidence b.confidence with h | h | h
  · exact Or.inl (Or.inl h)
  · rcases Nat.lt_trichotomy (corner_case_flag a) (corner_case_flag b) with f | f | f
    · exact Or.inr (Or.inr ⟨h.symm, Or.inl f⟩)
    · rcases Nat.le_total b.created_at a.created_at with d | d
      · exact Or.inl (Or.inr ⟨h, Or.inr ⟨f, d⟩⟩)
      · exact Or.inr (Or.inr ⟨h.symm, Or.inr ⟨f.symm, d⟩⟩)
    · exact Or.inl (Or.inr ⟨h, Or.inl f⟩)
  · exact Or.inr (Or.inl h)

/-- ticket_repository.py `get_problematic_tickets`: the stored rows sorted
by the ORDER BY keys, then cut to `limit`.  SQL leaves the relative order
of rows equal under all keys unspecified; the model realises the query with
insertion sort, a sort consistent with the keys. -/
def get_problematic_tickets (rows : List TicketRow) (lim : Nat) :
    List TicketRow :=
  (List.insertionSort problematic_order rows).take lim

/-! ### Concrete instances used by counterexamples and witnesses -/

/-- A single-message conversation whose keyword result is complete with
confidence 0.45 and whose agentic fallback resolves neither axis. -/
def msgs_suite : List (List Char) := ["suite abort".toList]

/-- The Layer 2 answer for `msgs_suite` with the provider unavailable. -/
def agentic_suite : TaggingResult :=
  tag_conversation msgs_suite false RunOutcome.raised

/-- A two-message conversation with the same low-confidence first message. -/
def msgs_suite2 : List (List Char) := ["suite abort".toList, "x".toList]

/-- A two-message conversation whose keyword result is complete with
confidence 0.78. -/
def msgs_hotel : List (List Char) :=
  ["cancel my hotel reservation".toList, "thanks".toList]

/-- An arbitrary Layer 2 answer used where its value is irrelevant. -/
def agentic_any : TaggingResult := create_error_result "unused"

/-- Input on which the matched keyword (flights, index 1) differs from the
first list keyword occurring in the match (flight, index 0). -/
def text_flights : List Char := "flights".toList

/-- The FLIGHT keyword list as character lists. -/
def flight_kws : List (List Char) :=
  ((service_keywords.headD (ServiceType.OTHER, [])).2).map String.toList

/-- Input matching no configured keyword on either axis. -/
def text_hi : List Char := "hi".toList

/-- Fallback input resolving both axes. -/
def text_fb_both : List Char := "cancel hotel".toList

/-- Fallback input resolving exactly one axis. -/
def text_fb_one : List Char := "hotel stay".toList

/-- Fallback input resolving neither axis. -/
def text_fb_none : List Char := "good morning".toList

/-- Two rows equal on confidence and corner-case flag, ordered oppositely
by created_at and by updated_at. -/
def rowA : TicketRow := ⟨1/2, some "Flight", some "Cancellation", 10, 0⟩

/-- See `rowA`. -/
def rowB : TicketRow := ⟨1/2, some "Flight", some "Cancellation", 5, 20⟩

/-! ### Helper lemmas -/

theorem is_successful_of_is_complete (r : TaggingResult)
    (h : r.is_complete = true) : r.is_successful = true := by
  cases hs : r.service_type <;> cases hc : r.category <;>
    simp [TaggingResult.is_complete, TaggingResult.is_successful, hs, hc] at h ⊢

theorem bestLabel_mem {α : Type} :
    ∀ {l : List (α × Nat)} {p}, bestLabel l = some p → p ∈ l := by
  intro l
  induction l with
  | nil => intro p h; simp [bestLabel] at h
  | cons x rest ih =>
    intro p h
    simp only [bestLabel] at h
    cases hr : bestLabel rest with
    | none => rw [hr] at h; simp at h; simp [h]
    | some y =>
      rw [hr] at h
      by_cases hxy : x.2 < y.2 <;> simp [hxy] at h
      · exact List.mem_cons_of_mem x (h ▸ ih hr)
      · simp [h]

theorem bestLabel_eq_none {α : Type} {l : List (α × Nat)}
    (h : bestLabel l = none) : l = [] := by
  cases l with
  | nil => rfl
  | cons x rest =>
    simp only [bestLabel] at h
    cases hr : bestLabel rest <;> rw [hr] at h <;> simp at h
    split at h <;> simp at h

theorem bestLabel_le {α : Type} :
    ∀ {l : List (α × Nat)} {p}, bestLabel l = some p → ∀ q ∈ l, q.2 ≤ p.2 := by
  intro l
  induction l with
  | nil => intro p h; simp [bestLabel] at h
  | cons x rest ih =>
    intro p h q hq
    simp only [bestLabel] at h
    cases hr : bestLabel rest with
    | none =>
      rw [hr] at h
      simp only [Option.some.injEq] at h
      have hrest := bestLabel_eq_none hr
      subst hrest
      rcases List.mem_singleton.mp hq with rfl
      rw [← h]
    | some y =>
      rw [hr] at h
      rcases List.mem_cons.mp hq with rfl | hqr
      · by_cases hxy : q.2 < y.2 <;> simp only [hxy, if_true, if_false,
          reduceIte, Option.some.injEq] at h <;> rw [← h]
        · exact Nat.le_of_lt hxy
      · have hqy := ih hr q hqr
        by_cases hxy : x.2 < y.2 <;> simp only [hxy, if_true, if_false,
          reduceIte, Option.some.injEq] at h <;> rw [← h]
        · exact hqy
        · exact Nat.le_trans hqy (Nat.le_of_not_lt hxy)

theorem tag_text_suite : tag_text (joinSpace msgs_suite) =
    ⟨some ServiceType.HOTEL, some Category.CANCELLATION, 9/20, "keywords"⟩ := by
  have hk : scoresFor service_keywords (pyStrip (pyToLower (joinSpace msgs_suite)))
      = [(ServiceType.HOTEL, 15)] := by decide
  have hc : scoresFor category_keywords (pyStrip (pyToLower (joinSpace msgs_suite)))
      = [(Category.CANCELLATION, 14)] := by decide
  have hsvc : find_service_type (pyStrip (pyToLower (joinSpace msgs_suite)))
      = (some ServiceType.HOTEL, 9/20) := by
    rw [find_service_type, hk]
    simp only [bestLabel]
    norm_num [min_def]
  have hcat : find_category (pyStrip (pyToLower (joinSpace msgs_suite)))
      = (some Category.CANCELLATION, 21/50) := by
    rw [find_category, hc]
    simp only [bestLabel]
    norm_num [min_def]
  simp only [tag_text, hsvc, hcat]
  norm_num

theorem agentic_suite_val : agentic_suite =
    ⟨some ServiceType.OTHER, some Category.OTHERS, 3/10, "agentic_fallback"⟩ := by
  have h0 : (pyStrip (joinSpace msgs_suite)).isEmpty = false := by decide
  have hs : fallback_service (pyToLower (pyStrip (joinSpace msgs_suite))) = none := by
    decide
  have hc : fallback_category (pyToLower (pyStrip (joinSpace msgs_suite))) = none := by
    decide
  simp only [agentic_suite, tag_conversation, h0, fallback_analysis, hs, hc]
  simp

theorem tag_ticket_suite : tag_ticket msgs_suite agentic_suite =
    (agentic_suite, true) := by
  have hne : msgs_suite.isEmpty = false := by decide
  have hlen : msgs_suite.length = 1 := by decide
  simp only [tag_ticket, hne, tag_text_suite, agentic_suite_val, hlen]
  norm_num [TaggingResult.is_successful, TaggingResult.is_complete]

theorem tag_text_hotel : tag_text (joinSpace msgs_hotel) =
    ⟨some ServiceType.HOTEL, some Category.CANCELLATION, 39/50, "keywords"⟩ := by
  have hk : scoresFor service_keywords (pyStrip (pyToLower (joinSpace msgs_hotel)))
      = [(ServiceType.HOTEL, 26)] := by decide
  have hc : scoresFor category_keywords (pyStrip (pyToLower (joinSpace msgs_hotel)))
      = [(Category.CANCELLATION, 10)] := by decide
  have hsvc : find_service_type (pyStrip (pyToLower (joinSpace msgs_hotel)))
      = (some ServiceType.HOTEL, 39/50) := by
    rw [find_service_type, hk]
    simp only [bestLabel]
    norm_num [min_def]
  have hcat : find_category (pyStrip (pyToLower (joinSpace msgs_hotel)))
      = (some Category.CANCELLATION, 3/10) := by
    rw [find_category, hc]
    simp only [bestLabel]
    norm_num [min_def]
  simp only [tag_text, hsvc, hcat]
  norm_num

theorem tag_text_suite2 : tag_text (joinSpace msgs_suite2) =
    ⟨some ServiceType.HOTEL, some Category.CANCELLATION, 9/20, "keywords"⟩ := by
  have hk : scoresFor service_keywords (pyStrip (pyToLower (joinSpace msgs_suite2)))
      = [(ServiceType.HOTEL, 15)] := by decide
  have hc : scoresFor category_keywords (pyStrip (pyToLower (joinSpace msgs_suite2)))
      = [(Category.CANCELLATION, 14)] := by decide
  have hsvc : find_service_type (pyStrip (pyToLower (joinSpace msgs_suite2)))
      = (some ServiceType.HOTEL, 9/20) := by
    rw [find_service_type, hk]
    simp only [bestLabel]
    norm_num [min_def]
  have hcat : find_category (pyStrip (pyToLower (joinSpace msgs_suite2)))
      = (some Category.CANCELLATION, 21/50) := by
    rw [find_category, hc]
    simp only [bestLabel]
    norm_num [min_def]
  simp only [tag_text, hsvc, hcat]
  norm_num

/-- C1: refuted as stated.  On the single-message conversation "suite abort"
the keyword result is the axis-complete (Hotel, Cancellation) at confidence
0.45; escalation runs (0.45 < 0.5) and the agentic fallback returns the
axis-complete unclassified pair at confidence 0.3.  The semantic confidence
is not greater and the keyword result is axis-complete, so the claimed rule
keeps the keyword result — but the code returns the semantic one, because
its selection condition tests only the semantic result's completeness. -/
theorem C1_counterexample :
    (tag_ticket msgs_suite agentic_suite).2 = true ∧
    ¬ ((tag_text (joinSpace msgs_suite)).confidence_score
        < agentic_suite.confidence_score) ∧
    ¬ (agentic_suite.is_complete = true ∧
        (tag_text (joinSpace msgs_suite)).is_complete = false) ∧
    (tag_ticket msgs_suite agentic_suite).1 = agentic_suite ∧
    agentic_suite ≠ tag_text (joinSpace msgs_suite) := by
  refine ⟨by rw [tag_ticket_suite], ?_, ?_, by rw [tag_ticket_suite], ?_⟩
  · rw [tag_text_suite, agentic_suite_val]
    norm_num
  · rw [tag_text_suite, agentic_suite_val]
    simp [TaggingResult.is_complete]
  · rw [tag_text_suite, agentic_suite_val]
    simp

/-- C1 amended: after escalation the result-selection rule prefers the
semantic result over the keyword result iff the semantic confidence is
strictly greater than the keyword confidence OR the semantic result is
axis-complete (regardless of the keyword result's completeness); otherwise
the keyword result is kept. -/
theorem C1_amended (msgs : List (List Char)) (agentic : TaggingResult)
    (h : (tag_ticket msgs agentic).2 = true) :
    (tag_ticket msgs agentic).1 =
      if (tag_text (joinSpace msgs)).confidence_score < agentic.confidence_score
          ∨ agentic.is_complete = true
      then agentic else tag_text (joinSpace msgs) := by
  by_cases h0 : msgs.isEmpty
  · simp [tag_ticket, h0] at h
  · simp only [tag_ticket, h0, Bool.false_eq_true, if_false] at h ⊢
    split_ifs at h ⊢ <;> simp_all

/-- C1 witness: the amended selection rule evaluated on the concrete
escalating conversation. -/
theorem C1_witness :
    (tag_ticket msgs_suite agentic_suite).1 =
      if (tag_text (joinSpace msgs_suite)).confidence_score
          < agentic_suite.confidence_score ∨ agentic_suite.is_complete = true
      then agentic_suite else tag_text (joinSpace msgs_suite) :=
  C1_amended msgs_suite agentic_suite (by rw [tag_ticket_suite])

/-- C2: refuted as stated.  The conversation below has two user messages,
but its keyword result is successful at confidence 0.78 ≥ 0.7, so the
fast path returns it before the message count is ever consulted and
Layer 2 is not invoked. -/
theorem C2_counterexample :
    1 < msgs_hotel.length ∧ (tag_ticket msgs_hotel agentic_any).2 = false := by
  constructor
  · decide
  · have hne : msgs_hotel.isEmpty = false := by decide
    simp only [tag_ticket, hne, Bool.false_eq_true, if_false, tag_text_hotel]
    norm_num [TaggingResult.is_successful]

/-- C2 amended: Layer 2 is never invoked when the Layer 1 result is
axis-complete with confidence ≥ 0.7 (first conjunct), and whenever the
fast path does not accept the Layer 1 result (not successful with
confidence ≥ 0.7), a conversation with more than one user message always
escalates to Layer 2 (second conjunct). -/
theorem C2_amended (msgs : List (List Char)) (agentic : TaggingResult) :
    ((tag_text (joinSpace msgs)).is_complete = true ∧
        (7:ℚ)/10 ≤ (tag_text (joinSpace msgs)).confidence_score →
      (tag_ticket msgs agentic).2 = false) ∧
    (1 < msgs.length →
      ¬ ((tag_text (joinSpace msgs)).is_successful = true ∧
          (7:ℚ)/10 ≤ (tag_text (joinSpace msgs)).confidence_score) →
      (tag_ticket msgs agentic).2 = true) := by
  constructor
  · rintro ⟨hc, hconf⟩
    by_cases h0 : msgs.isEmpty
    · simp [tag_ticket, h0]
    · have hs := is_successful_of_is_complete _ hc
      simp [tag_ticket, h0, hs, hconf]
  · intro hlen hnot
    have h0 : msgs.isEmpty = false := by
      cases msgs with
      | nil => simp at hlen
      | cons a l => simp
    simp only [tag_ticket, h0, Bool.false_eq_true, if_false]
    rw [if_neg hnot, if_pos (Or.inl hlen)]
    split_ifs <;> rfl

/-- C2 witness: the fast path on the confident complete conversation, and
escalation on the two-message low-confidence conversation. -/
theorem C2_witness :
    (tag_ticket msgs_hotel agentic_any).2 = false ∧
    (tag_ticket msgs_suite2 agentic_any).2 = true := by
  constructor
  · exact (C2_amended msgs_hotel agentic_any).1
      (by rw [tag_text_hotel]; norm_num [TaggingResult.is_complete])
  · exact (C2_amended msgs_suite2 agentic_any).2 (by decide)
      (by rw [tag_text_suite2]; norm_num)

/-- The returned flag of the merge step is exactly the merge decision. -/
theorem apply_merge_snd (cur : Tag) (nr : TaggingResult) :
    (apply_merge cur nr).2 = should_update cur nr := by
  simp only [apply_merge]
  split_ifs with h <;> simp [h]

/-- The merge decision, spelled out as a proposition. -/
theorem should_update_iff (cur : Tag) (nr : TaggingResult) :
    should_update cur nr = true ↔
      (nr.is_successful = true ∧ (cur.is_complete = false ∨
        cur.confidence < nr.confidence_score ∨ cur.is_default_tag = true)) := by
  simp [should_update, Bool.and_eq_true, Bool.or_eq_true, Bool.not_eq_true',
    decide_eq_true_eq]
  intro _
  rw [or_assoc]

/-- C3: the Tag Merge Policy replaces the current tag iff the new result is
successful and (the current tag is incomplete, or the new result is
strictly more confident, or the current tag is the default pair); a
complete non-default tag is never replaced at lower or equal confidence;
a negative decision leaves the tag untouched, a positive one installs the
converted new result. -/
theorem C3_merge_policy (cur : Tag) (nr : TaggingResult) :
    ((apply_merge cur nr).2 = true ↔
      (nr.is_successful = true ∧ (cur.is_complete = false ∨
        cur.confidence < nr.confidence_score ∨ cur.is_default_tag = true))) ∧
    (cur.is_complete = true → cur.is_default_tag = false →
      nr.confidence_score ≤ cur.confidence → apply_merge cur nr = (cur, false)) ∧
    ((apply_merge cur nr).2 = false → (apply_merge cur nr).1 = cur) ∧
    ((apply_merge cur nr).2 = true → (apply_merge cur nr).1 = nr.to_tag) := by
  refine ⟨by rw [apply_merge_snd, should_update_iff], ?_, ?_, ?_⟩
  · intro h1 h2 h3
    have hdec : should_update cur nr = false := by
      simp [should_update, h1, h2, not_lt.mpr h3]
    simp [apply_merge, hdec]
  · intro h
    rw [apply_merge_snd] at h
    simp [apply_merge, h]
  · intro h
    rw [apply_merge_snd] at h
    simp [apply_merge, h]

/-- C3 witness: a complete, non-default tag at confidence 0.8 survives a
successful result of equal confidence. -/
theorem C3_witness :
    apply_merge ⟨some ServiceType.FLIGHT, some Category.MODIFY, 4/5, "keywords"⟩
        ⟨some ServiceType.HOTEL, some Category.CANCELLATION, 4/5, "keywords"⟩ =
      (⟨some ServiceType.FLIGHT, some Category.MODIFY, 4/5, "keywords"⟩, false) :=
  (C3_merge_policy _ _).2.1 (by decide) (by decide) (by norm_num)

/-- C4: refuted as stated.  On the input "flights" the single match is
produced by the keyword "flights", which has index 1 in the FLIGHT list, so
the claimed score is 1 + 0.1·1 = 1.1 (11 tenths) with confidence 0.33 —
but the source looks up the first list keyword that is a substring of the
matched text, finds "flight" at index 0, and scores 1.0 (10 tenths) with
confidence 0.3. -/
theorem C4_counterexample :
    findallWithIdx flight_kws text_flights = [(1, "flights".toList)] ∧
    label_score_tenths flight_kws text_flights = some 10 ∧
    10 * (findallWithIdx flight_kws text_flights).length +
        ((findallWithIdx flight_kws text_flights).map Prod.fst).sum = 11 ∧
    find_service_type text_flights = (some ServiceType.FLIGHT, 3/10) ∧
    min (((11:Nat) : ℚ) * 3 / 100) 1 ≠ 3/10 := by
  refine ⟨by decide, by decide, by decide, ?_, by norm_num [min_def]⟩
  have h : scoresFor service_keywords text_flights = [(ServiceType.FLIGHT, 10)] := by
    decide
  rw [find_service_type, h]
  simp only [bestLabel]
  norm_num [min_def]

/-- C4 amended: in the Pattern Classifier, for every axis label with at
least one whole-word match, the label's score (in exact tenths) equals
10 × (count of matches) plus the sum over matches of the index of the
FIRST keyword of the label's list occurring as a substring of the matched
text (not the index of the keyword that produced the match); the axis
winner attains the maximal score and its confidence is min(score × 0.3, 1);
the overall confidence is the maximum of the two per-axis confidences. -/
theorem C4_amended (text : List Char) :
    (∀ lk ∈ service_keywords,
      findall (lk.2.map String.toList) (pyStrip (pyToLower text)) ≠ [] →
      label_score_tenths (lk.2.map String.toList) (pyStrip (pyToLower text)) =
        some (10 * (findall (lk.2.map String.toList)
            (pyStrip (pyToLower text))).length +
          ((findall (lk.2.map String.toList) (pyStrip (pyToLower text))).map
            (code_keyword_index (lk.2.map String.toList))).sum)) ∧
    (∀ lk ∈ category_keywords,
      findall (lk.2.map String.toList) (pyStrip (pyToLower text)) ≠ [] →
      label_score_tenths (lk.2.map String.toList) (pyStrip (pyToLower text)) =
        some (10 * (findall (lk.2.map String.toList)
            (pyStrip (pyToLower text))).length +
          ((findall (lk.2.map String.toList) (pyStrip (pyToLower text))).map
            (code_keyword_index (lk.2.map String.toList))).sum)) ∧
    (∀ l c, find_service_type (pyStrip (pyToLower text)) = (some l, c) →
      ∃ s, (l, s) ∈ scoresFor service_keywords (pyStrip (pyToLower text)) ∧
        (∀ q ∈ scoresFor service_keywords (pyStrip (pyToLower text)), q.2 ≤ s) ∧
        c = min ((s : ℚ) * 3 / 100) 1) ∧
    (∀ l c, find_category (pyStrip (pyToLower text)) = (some l, c) →
      ∃ s, (l, s) ∈ scoresFor category_keywords (pyStrip (pyToLower text)) ∧
        (∀ q ∈ scoresFor category_keywords (pyStrip (pyToLower text)), q.2 ≤ s) ∧
        c = min ((s : ℚ) * 3 / 100) 1) ∧
    ((find_service_type (pyStrip (pyToLower text))).1.isSome = true ∨
        (find_category (pyStrip (pyToLower text))).1.isSome = true →
      (tag_text text).confidence_score =
        max (find_service_type (pyStrip (pyToLower text))).2
          (find_category (pyStrip (pyToLower text))).2) := by
  refine ⟨?_, ?_, ?_, ?_, ?_⟩
  · intro lk _ hne
    have he : (findall (lk.2.map String.toList)
        (pyStrip (pyToLower text))).isEmpty = false := by
      cases hf : findall (lk.2.map String.toList) (pyStrip (pyToLower text)) with
      | nil => exact absurd hf hne
      | cons a l => rfl
    simp [label_score_tenths, he]
  · intro lk _ hne
    have he : (findall (lk.2.map String.toList)
        (pyStrip (pyToLower text))).isEmpty = false := by
      cases hf : findall (lk.2.map String.toList) (pyStrip (pyToLower text)) with
      | nil => exact absurd hf hne
      | cons a l => rfl
    simp [label_score_tenths, he]
  · intro l c h
    rw [find_service_type] at h
    cases hb : bestLabel (scoresFor service_keywords (pyStrip (pyToLower text))) with
    | none => rw [hb] at h; simp at h
    | some ls =>
      rw [hb] at h
      simp only [Prod.mk.injEq, Option.some.injEq] at h
      obtain ⟨h1, h2⟩ := h
      refine ⟨ls.2, ?_, fun q hq => bestLabel_le hb q hq, h2.symm⟩
      have hm := bestLabel_mem hb
      rw [← h1]
      simpa using hm
  · intro l c h
    rw [find_category] at h
    cases hb : bestLabel (scoresFor category_keywords (pyStrip (pyToLower text))) with
    | none => rw [hb] at h; simp at h
    | some ls =>
      rw [hb] at h
      simp only [Prod.mk.injEq, Option.some.injEq] at h
      obtain ⟨h1, h2⟩ := h
      refine ⟨ls.2, ?_, fun q hq => bestLabel_le hb q hq, h2.symm⟩
      have hm := bestLabel_mem hb
      rw [← h1]
      simpa using hm
  · intro h
    have hcond : ((find_service_type (pyStrip (pyToLower text))).1.isNone &&
        (find_category (pyStrip (pyToLower text))).1.isNone) = false := by
      rcases h with h | h <;>
        simp [Option.isNone_eq_false_iff, Option.isSome_iff_ne_none] at h ⊢ <;>
          simp [h]
    simp only [tag_text, hcond, Bool.false_eq_true, if_false]

/-- C4 witness: the amended winner characterisation evaluated on the
"flights" input. -/
theorem C4_witness :
    ∃ s, (ServiceType.FLIGHT, s) ∈
        scoresFor service_keywords (pyStrip (pyToLower text_flights)) ∧
      (∀ q ∈ scoresFor service_keywords (pyStrip (pyToLower text_flights)),
        q.2 ≤ s) ∧
      (3:ℚ)/10 = min ((s : ℚ) * 3 / 100) 1 := by
  refine (C4_amended text_flights).2.2.1 ServiceType.FLIGHT (3/10) ?_
  have h : scoresFor service_keywords (pyStrip (pyToLower text_flights)) =
      [(ServiceType.FLIGHT, 10)] := by decide
  rw [find_service_type, h]
  simp only [bestLabel]
  norm_num [min_def]

/-- C5: refuted as stated.  Constructing a Tag with confidence 2 (outside
the unit interval) succeeds: the Tag dataclass declares no validation. -/
theorem C5_counterexample :
    mkTag (some ServiceType.FLIGHT) (some Category.MODIFY) 2 "manual" =
      Except.ok ⟨some ServiceType.FLIGHT, some Category.MODIFY, 2, "manual"⟩ ∧
    ¬ ((2:ℚ) ≤ 1) :=
  ⟨rfl, by norm_num⟩

/-- C5 amended: TaggingResult construction succeeds iff the confidence lies
in [0,1] (and stores it unclamped), while Tag construction always succeeds
because the Tag dataclass performs no validation. -/
theorem C5_amended (st : Option ServiceType) (cat : Option Category)
    (conf : ℚ) (meth : String) :
    ((∃ r, mkTaggingResult st cat conf meth = Except.ok r) ↔
      (0 ≤ conf ∧ conf ≤ 1)) ∧
    (∀ r, mkTaggingResult st cat conf meth = Except.ok r →
      r.confidence_score = conf) ∧
    (∃ t, mkTag st cat conf meth = Except.ok t) := by
  refine ⟨⟨?_, ?_⟩, ?_, ⟨_, rfl⟩⟩
  · rintro ⟨r, hr⟩
    by_cases h : 0 ≤ conf ∧ conf ≤ 1
    · exact h
    · simp [mkTaggingResult, h] at hr
  · intro h
    exact ⟨⟨st, cat, conf, meth⟩, by simp [mkTaggingResult, h]⟩
  · intro r hr
    by_cases h : 0 ≤ conf ∧ conf ≤ 1
    · simp only [mkTaggingResult, if_pos h, Except.ok.injEq] at hr
      rw [← hr]
    · simp [mkTaggingResult, h] at hr

/-- C5 witness: an in-range TaggingResult constructs, and an out-of-range
Tag also constructs. -/
theorem C5_witness :
    (∃ r, mkTaggingResult none none (1/2) "m" = Except.ok r) ∧
    (∃ t, mkTag none none 2 "m" = Except.ok t) :=
  ⟨(C5_amended none none (1/2) "m").1.mpr (by norm_num),
   (C5_amended none none 2 "m").2.2⟩

/-- C6: with the provider unavailable, the fallback pass returns method
agentic_fallback always, confidence exactly 0.7 when both axes resolve,
exactly 0.5 when exactly one resolves, and exactly 0.3 with the
unclassified pair substituted when neither resolves. -/
theorem C6_fallback_tiers (combined : List Char) :
    (fallback_analysis combined).method_used = "agentic_fallback" ∧
    ((fallback_service (pyToLower combined)).isSome = true →
      (fallback_category (pyToLower combined)).isSome = true →
      fallback_analysis combined =
        ⟨fallback_service (pyToLower combined),
         fallback_category (pyToLower combined), 7/10, "agentic_fallback"⟩) ∧
    (¬ ((fallback_service (pyToLower combined)).isSome =
        (fallback_category (pyToLower combined)).isSome) →
      fallback_analysis combined =
        ⟨fallback_service (pyToLower combined),
         fallback_category (pyToLower combined), 1/2, "agentic_fallback"⟩) ∧
    (fallback_service (pyToLower combined) = none →
      fallback_category (pyToLower combined) = none →
      fallback_analysis combined =
        ⟨some ServiceType.OTHER, some Category.OTHERS, 3/10,
         "agentic_fallback"⟩) := by
  cases hs : fallback_service (pyToLower combined) <;>
    cases hc : fallback_category (pyToLower combined) <;>
      simp [fallback_analysis, hs, hc]

/-- C6 witness: the three tiers on concrete fallback inputs. -/
theorem C6_witness :
    (fallback_analysis text_fb_both).confidence_score = 7/10 ∧
    (fallback_analysis text_fb_one).confidence_score = 1/2 ∧
    (fallback_analysis text_fb_none).confidence_score = 3/10 := by
  refine ⟨?_, ?_, ?_⟩
  · rw [(C6_fallback_tiers text_fb_both).2.1 (by decide) (by decide)]
  · rw [(C6_fallback_tiers text_fb_one).2.2.1 (by decide)]
  · rw [(C6_fallback_tiers text_fb_none).2.2.2 (by decide) (by decide)]

theorem parse_ai_response_conf_bounds (fo : Except Unit (List Char)) :
    0 ≤ (parse_ai_response fo).confidence_score ∧
      (parse_ai_response fo).confidence_score ≤ 1 := by
  cases fo with
  | error e => simp [parse_ai_response, create_error_result]
  | ok resp =>
    simp only [parse_ai_response, extract_tagging]
    cases hsc : searchConf (pyToLower resp) with
    | none => norm_num
    | some x =>
      constructor
      · exact le_min (by norm_num) (le_max_left 0 x)
      · exact min_le_left 1 _

theorem fallback_analysis_conf_bounds (c : List Char) :
    0 ≤ (fallback_analysis c).confidence_score ∧
      (fallback_analysis c).confidence_score ≤ 1 := by
  cases hs : fallback_service (pyToLower c) <;>
    cases hc : fallback_category (pyToLower c) <;>
      simp [fallback_analysis, hs, hc] <;> norm_num

/-- C7: the Semantic Classifier is total: every invocation produces a
result whose confidence lies in [0,1]; an empty conversation yields the
error result, and with the provider available every invocation (raising or
not) is converted by the local handlers to the error result; the error
result is exactly the unclassified pair at confidence 0.0 with method
agentic_error; the response parser also only produces confidences within
[0,1]. -/
theorem C7_no_raise (msgs : List (List Char)) (avail : Bool)
    (run : RunOutcome) :
    (0 ≤ (tag_conversation msgs avail run).confidence_score ∧
      (tag_conversation msgs avail run).confidence_score ≤ 1) ∧
    ((pyStrip (joinSpace msgs)).isEmpty = true →
      tag_conversation msgs avail run = create_error_result "empty_input") ∧
    ((pyStrip (joinSpace msgs)).isEmpty = false → avail = true →
      tag_conversation msgs avail run = create_error_result "analysis_error") ∧
    (∀ reason, create_error_result reason =
      ⟨some ServiceType.OTHER, some Category.OTHERS, 0, "agentic_error"⟩) ∧
    (∀ fo, 0 ≤ (parse_ai_response fo).confidence_score ∧
      (parse_ai_response fo).confidence_score ≤ 1) := by
  refine ⟨?_, ?_, ?_, fun reason => rfl, parse_ai_response_conf_bounds⟩
  · by_cases he : (pyStrip (joinSpace msgs)).isEmpty
    · simp [tag_conversation, he, create_error_result]
    · cases avail with
      | false =>
        simpa [tag_conversation, he] using
          fallback_analysis_conf_bounds (pyStrip (joinSpace msgs))
      | true =>
        cases run <;> simp [tag_conversation, he, create_error_result]
  · intro he
    simp [tag_conversation, he]
  · intro he ha
    subst ha
    cases run <;> simp [tag_conversation, he]

/-- C7 witness: the empty conversation and a raising provider call both
yield the agentic_error result. -/
theorem C7_witness :
    tag_conversation [] true RunOutcome.raised =
      ⟨some ServiceType.OTHER, some Category.OTHERS, 0, "agentic_error"⟩ ∧
    tag_conversation ["hi".toList] true RunOutcome.raised =
      ⟨some ServiceType.OTHER, some Category.OTHERS, 0, "agentic_error"⟩ := by
  constructor
  · rw [(C7_no_raise [] true RunOutcome.raised).2.1 (by decide)]
    rfl
  · rw [(C7_no_raise ["hi".toList] true RunOutcome.raised).2.2.1 (by decide) rfl]
    rfl

/-- C8: when no configured keyword of either axis has a whole-word match in
the normalised input (which covers empty and whitespace-only input), the
Pattern Classifier returns the unclassified pair with confidence exactly
0.0 and method keywords_default. -/
theorem C8_default (t : List Char)
    (hs : ∀ lk ∈ service_keywords,
      findall (lk.2.map String.toList) (pyStrip (pyToLower t)) = [])
    (hc : ∀ lk ∈ category_keywords,
      findall (lk.2.map String.toList) (pyStrip (pyToLower t)) = []) :
    tag_text t =
      ⟨some ServiceType.OTHER, some Category.OTHERS, 0, "keywords_default"⟩ := by
  have hs0 : scoresFor service_keywords (pyStrip (pyToLower t)) = [] := by
    rw [scoresFor, List.filterMap_eq_nil_iff]
    intro lk hlk
    simp [label_score_tenths, hs lk hlk]
  have hc0 : scoresFor category_keywords (pyStrip (pyToLower t)) = [] := by
    rw [scoresFor, List.filterMap_eq_nil_iff]
    intro lk hlk
    simp [label_score_tenths, hc lk hlk]
  have h1 : find_service_type (pyStrip (pyToLower t)) = (none, 0) := by
    rw [find_service_type, hs0]
    simp [bestLabel]
  have h2 : find_category (pyStrip (pyToLower t)) = (none, 0) := by
    rw [find_category, hc0]
    simp [bestLabel]
  simp [tag_text, h1, h2]

/-- C8 witness: the no-match input "hi". -/
theorem C8_witness :
    tag_text text_hi =
      ⟨some ServiceType.OTHER, some Category.OTHERS, 0, "keywords_default"⟩ :=
  C8_default text_hi (by decide) (by decide)

/-- C10: each default unclassified result of the classifiers (keyword
no-match default, agentic fallback substitution, agentic error result)
carries Other/Others explicitly, so it is both successful and complete;
consequently the merge policy's isSuccessful precondition does not exclude
these confidence-0.0 defaults: against an incomplete or default current
tag the error result is still accepted. -/
theorem C10_defaults_complete (t : List Char) (reason : String) (cur : Tag) :
    ((find_service_type (pyStrip (pyToLower t))).1 = none →
      (find_category (pyStrip (pyToLower t))).1 = none →
      (tag_text t).service_type = some ServiceType.OTHER ∧
      (tag_text t).category = some Category.OTHERS ∧
      (tag_text t).is_successful = true ∧ (tag_text t).is_complete = true ∧
      (tag_text t).confidence_score = 0) ∧
    (fallback_service (pyToLower t) = none →
      fallback_category (pyToLower t) = none →
      (fallback_analysis t).service_type = some ServiceType.OTHER ∧
      (fallback_analysis t).category = some Category.OTHERS ∧
      (fallback_analysis t).is_successful = true ∧
      (fallback_analysis t).is_complete = true) ∧
    ((create_error_result reason).service_type = some ServiceType.OTHER ∧
      (create_error_result reason).category = some Category.OTHERS ∧
      (create_error_result reason).is_successful = true ∧
      (create_error_result reason).is_complete = true ∧
      (create_error_result reason).confidence_score = 0) ∧
    (cur.is_default_tag = true ∨ cur.is_complete = false →
      should_update cur (create_error_result reason) = true) := by
  refine ⟨?_, ?_, ?_, ?_⟩
  · intro h1 h2
    simp [tag_text, h1, h2, TaggingResult.is_successful, TaggingResult.is_complete]
  · intro h1 h2
    simp [fallback_analysis, h1, h2, TaggingResult.is_successful,
      TaggingResult.is_complete]
  · simp [create_error_result, TaggingResult.is_successful,
      TaggingResult.is_complete]
  · intro h
    rcases h with h | h <;>
      simp [should_update, create_error_result, TaggingResult.is_successful, h]

/-- C10 witness: the concrete no-match input and the default current tag. -/
theorem C10_witness :
    (tag_text text_hi).is_complete = true ∧
    (fallback_analysis text_fb_none).is_complete = true ∧
    should_update ⟨some ServiceType.OTHER, some Category.OTHERS, 0, ""⟩
      (create_error_result "analysis_error") = true := by
  obtain ⟨h1, h2, _, h4⟩ := C10_defaults_complete text_hi "analysis_error"
    ⟨some ServiceType.OTHER, some Category.OTHERS, 0, ""⟩
  refine ⟨(h1 (by decide) (by decide)).2.2.2.1, ?_, h4 (Or.inl (by decide))⟩
  obtain ⟨_, hfb, _, _⟩ := C10_defaults_complete text_fb_none "x"
    ⟨some ServiceType.OTHER, some Category.OTHERS, 0, ""⟩
  exact (hfb (by decide) (by decide)).2.2.2

/-- C9: refuted as stated.  Two rows with equal confidence and equal
corner-case flag are ordered by created_at descending, not by updated_at:
rowA (created later, updated earlier) precedes rowB (created earlier,
updated later), so the listing is not sorted by most-recently-updated
first. -/
theorem C9_counterexample :
    ¬ List.Pairwise claim_order (get_problematic_tickets [rowA, rowB] 20) := by
  have hord : problematic_order rowA rowB := by
    refine Or.inr ⟨rfl, Or.inr ⟨rfl, ?_⟩⟩
    show (5:Nat) ≤ 10
    omega
  have hsort : get_problematic_tickets [rowA, rowB] 20 = [rowA, rowB] := by
    simp [get_problematic_tickets, List.insertionSort, List.orderedInsert, hord]
  rw [hsort]
  intro h
  have h1 := List.rel_of_pairwise_cons h (List.mem_singleton.mpr rfl)
  rcases h1 with h1 | ⟨_, h1⟩
  · norm_num [rowA, rowB] at h1
  · rcases h1 with h1 | ⟨_, h1⟩
    · simp [corner_case_flag, rowA, rowB] at h1
    · simp [rowA, rowB] at h1

/-- C9 amended: the problematic-ticket listing is sorted by ascending
confidence, then corner-case flag descending, then created_at descending
(most recently created first), and is a truncation of a permutation of the
stored rows sorted that way. -/
theorem C9_amended (rows : List TicketRow) (lim : Nat) :
    List.Pairwise problematic_order (get_problematic_tickets rows lim) ∧
    ∃ sorted, List.Perm sorted rows ∧
      List.Pairwise problematic_order sorted ∧
      get_problematic_tickets rows lim = sorted.take lim := by
  have hsorted : List.Pairwise problematic_order
      (List.insertionSort problematic_order rows) :=
    List.sorted_insertionSort problematic_order rows
  exact ⟨hsorted.sublist (List.take_sublist _ _),
    ⟨_, List.perm_insertionSort problematic_order rows, hsorted, rfl⟩⟩

end Sindibad
